import Mathlib

/-!
Verification development for the Optimal-Routes-in-Manhattan repository.

The repository builds block-to-block travel-time graphs per (hour, weekday)
slot from NYC taxi trips and simulates multi-stop tourist routes on them.
The embedding below models the graph library objects used by the scripts
(networkx undirected weighted graphs) and the two analysis modules:

* `NodeDegrees`  embeds `analyze_node_degrees.py` (slot-graph construction
  and per-landmark degree reporting);
* `AnalyzeRoutes` embeds `analyze_routes.py` (the route simulator
  `calculate_route_time` and the sweep `evaluate_routes`).

Numeric conventions: Python floats carrying travel times are modelled as
rationals; Python integer arithmetic on hours is modelled on `Int`, where
the Python `%` on a positive modulus coincides with `Int.emod`.
-/

/-- Equality of `Except` results is decidable componentwise. -/
instance {e a : Type} [DecidableEq e] [DecidableEq a] : DecidableEq (Except e a) := fun x y =>
  match x, y with
  | .error u, .error v =>
    if h : u = v then .isTrue (by rw [h]) else .isFalse (by intro hc; cases hc; exact h rfl)
  | .ok u, .ok v =>
    if h : u = v then .isTrue (by rw [h]) else .isFalse (by intro hc; cases hc; exact h rfl)
  | .error _, .ok _ => .isFalse (by intro hc; cases hc)
  | .ok _, .error _ => .isFalse (by intro hc; cases hc)

/-- The two networkx exceptions the analysed code can raise from
`dijkstra_path_length`: `NodeNotFound` when the source node is not in the
graph, and `NetworkXNoPath` when the target is unreachable. -/
inductive NXError where
  | nodeNotFound : NXError
  | noPath : NXError
deriving DecidableEq, Repr

/-- An `nx.Graph` as the scripts build one: a list of nodes added with
`add_node` (in call order) and a list of weighted edges added with
`add_edge` (in call order).  An undirected simple graph: a later
`add_edge` on the same unordered pair overwrites the earlier weight. -/
structure NXGraph where
  nodeList : List String
  edgeList : List (String × String × ℚ)
deriving DecidableEq, Repr

/-- All nodes of the graph: the explicitly added ones plus every edge
endpoint (networkx `add_edge` inserts missing endpoints as nodes). -/
def NXGraph.allNodes (G : NXGraph) : List String :=
  (G.nodeList ++ G.edgeList.flatMap (fun e => [e.1, e.2.1])).dedup

/-- Python `node in G`: membership in the node set. -/
def NXGraph.hasNode (G : NXGraph) (v : String) : Bool :=
  G.allNodes.contains v

/-- Python truthiness of a graph object: `bool(G)` is `len(G) > 0`,
the number of nodes being `len(G)`. -/
def NXGraph.pyBool (G : NXGraph) : Bool :=
  !G.allNodes.isEmpty

/-- The weight of the undirected edge between `u` and `v`, if present.
The edge list is scanned from the most recent insertion backwards, in
either orientation, matching the overwrite semantics of `add_edge`. -/
def NXGraph.edgeWeight? (G : NXGraph) (u v : String) : Option ℚ :=
  (G.edgeList.reverse.find? (fun e =>
    (e.1 == u && e.2.1 == v) || (e.1 == v && e.2.1 == u))).map (fun e => e.2.2)

/-- The distinct neighbors of `v` (networkx `G.neighbors(v)`); on a
self-loop, `v` is its own neighbor and is listed once. -/
def NXGraph.neighbors (G : NXGraph) (v : String) : List String :=
  G.allNodes.filter (fun u => (G.edgeWeight? v u).isSome)

/-- networkx `G.degree(v)` on an `nx.Graph`: the number of incident
edges, a self-loop counting twice.  Equivalently the number of distinct
neighbors plus one when a self-loop is present. -/
def NXGraph.degree (G : NXGraph) (v : String) : ℕ :=
  (G.neighbors v).length + (if (G.edgeWeight? v v).isSome then 1 else 0)

/-- The cost of a node path: the sum of the edge weights along it, or
`none` when a consecutive pair is not an edge.  A one-node path costs 0. -/
def NXGraph.pathCost (G : NXGraph) : List String → Option ℚ
  | [] => none
  | [_] => some 0
  | a :: b :: rest =>
    match G.edgeWeight? a b, G.pathCost (b :: rest) with
    | some w, some c => some (w + c)
    | _, _ => none

/-- All simple paths from `cur` to `target` avoiding `visited`, bounded by
`fuel` (a fuel of at least the node count covers every simple path). -/
def NXGraph.simplePaths (G : NXGraph) (target : String) :
    ℕ → String → List String → List (List String)
  | 0, _, _ => []
  | fuel + 1, cur, visited =>
    if cur = target then [[cur]]
    else
      (G.allNodes.filter (fun u =>
          (G.edgeWeight? cur u).isSome && !((cur :: visited).contains u))).flatMap
        (fun u => (G.simplePaths target fuel u (cur :: visited)).map (fun p => cur :: p))

/-- `nx.dijkstra_path_length(G, source, target, weight="weight")`:
raises `NodeNotFound` when the source is not a node of `G`; raises
`NetworkXNoPath` when no path reaches the target; otherwise returns the
least path cost.  With the nonnegative weights produced by the pipeline
(travel times), the Dijkstra result is the minimum simple-path cost,
which is what this executable model computes. -/
def dijkstra_path_length (G : NXGraph) (source target : String) : Except NXError ℚ :=
  if G.hasNode source = false then .error .nodeNotFound
  else
    match (G.simplePaths target (G.allNodes.length + 1) source []).filterMap G.pathCost with
    | [] => .error .noPath
    | c :: cs => .ok (cs.foldl min c)

/-- One row of the route-stat table (the groupby over
(pickup_hour, pickup_day, origin block, destination block)). -/
structure RouteStatRow where
  pickup_hour : ℤ
  pickup_day : String
  BCTCB2010_x : String
  BCTCB2010_y : String
  avg_travel_time : ℚ
  trip_count : ℕ
deriving DecidableEq, Repr

/-- One row of the degrees output table of `analyze_node_degrees.py`. -/
structure DegreeRow where
  graph : String
  node : String
  degree : ℕ
deriving DecidableEq, Repr

namespace NodeDegrees

/-- The three landmark block ids of `analyze_node_degrees.py`:
Times Square, Empire State, MET. -/
def TARGET_NODES : List String := ["10113001008", "10076001001", "10143001021"]

/-- The configured weekdays. -/
def DAYS_OF_WEEK : List String := ["Monday", "Saturday"]

/-- `list(range(10, 22))`: the configured hours 10 AM to 9 PM. -/
def HOURS : List ℤ := [10, 11, 12, 13, 14, 15, 16, 17, 18, 19, 20, 21]

/-- The slot graph `compute_node_degrees` builds for one (hour, day):
every block of the block-position mapping is added as a node, then one
edge per route-stat row whose pickup hour and day match the slot, with
the average travel time as weight. -/
def slotGraph (route_stats : List RouteStatRow) (block_positions : List (String × ℚ × ℚ))
    (hour : ℤ) (day : String) : NXGraph :=
  { nodeList := block_positions.map (fun p => p.1)
  , edgeList := (route_stats.filter fun r =>
      (r.pickup_hour == hour) && (r.pickup_day == day)).map
      fun r => (r.BCTCB2010_x, r.BCTCB2010_y, r.avg_travel_time) }

/-- `compute_node_degrees(route_stats, block_positions)`: for each hour in
`HOURS` and day in `DAYS_OF_WEEK`, build the slot graph and, for each
target landmark that is a node of it, emit a row with the graph key
`"hour_day"`, the node, and its degree; landmarks absent from the graph
produce no row. -/
def compute_node_degrees (route_stats : List RouteStatRow)
    (block_positions : List (String × ℚ × ℚ)) : List DegreeRow :=
  HOURS.flatMap fun hour =>
    DAYS_OF_WEEK.flatMap fun day =>
      let G := slotGraph route_stats block_positions hour day
      TARGET_NODES.filterMap fun node =>
        if G.hasNode node then
          some { graph := toString hour ++ "_" ++ day, node := node, degree := G.degree node }
        else none

end NodeDegrees

namespace AnalyzeRoutes

/-- The three landmark block ids of `analyze_routes.py`. -/
def TARGET_NODES : List String := ["10113001008", "10076001001", "10143001021"]

/-- The configured weekdays. -/
def DAYS_OF_WEEK : List String := ["Monday", "Saturday"]

/-- `list(range(10, 22))`. -/
def HOURS : List ℤ := [10, 11, 12, 13, 14, 15, 16, 17, 18, 19, 20, 21]

/-- The six fixed landmark permutations evaluated by the sweep. -/
def POSSIBLE_ROUTES : List (List String) :=
  [ ["10113001008", "10076001001", "10143001021"]
  , ["10113001008", "10143001021", "10076001001"]
  , ["10076001001", "10113001008", "10143001021"]
  , ["10076001001", "10143001021", "10113001008"]
  , ["10143001021", "10113001008", "10076001001"]
  , ["10143001021", "10076001001", "10113001008"] ]

/-- The candidate tour starting hours. -/
def START_TIMES : List ℤ := [10, 12, 14, 16]

/-- One row of the preprocessed trip dataframe, restricted to the columns
`build_graphs` reads. -/
structure TripRow where
  pickup_hour : ℤ
  pickup_day : String
  BCTCB2010_x : String
  BCTCB2010_y : String
  travel_time : ℚ
deriving DecidableEq, Repr

/-- One row of the mean-coordinate table (`compute_mean_coords` output). -/
structure MeanCoordRow where
  BCTCB2010 : String
  mean_latitude : ℚ
  mean_longitude : ℚ
deriving DecidableEq, Repr

/-- The route-stat groupby of `build_graphs`: one row per distinct
(pickup_hour, pickup_day, origin, destination) with the mean travel time
and the group size. -/
def computeRouteStats (df : List TripRow) : List RouteStatRow :=
  let keys := (df.map fun r => (r.pickup_hour, r.pickup_day, r.BCTCB2010_x, r.BCTCB2010_y)).dedup
  keys.map fun k =>
    let grp := df.filter fun r =>
      (r.pickup_hour == k.1) && (r.pickup_day == k.2.1) &&
      (r.BCTCB2010_x == k.2.2.1) && (r.BCTCB2010_y == k.2.2.2)
    { pickup_hour := k.1, pickup_day := k.2.1
    , BCTCB2010_x := k.2.2.1, BCTCB2010_y := k.2.2.2
    , avg_travel_time := (grp.map (fun r => r.travel_time)).sum / grp.length
    , trip_count := grp.length }

/-- The block-position dictionary of `build_graphs` (net effect): each
block occurring in the trips as origin or destination maps to its mean
(longitude, latitude) from the mean-coordinate table, or to `none` when
the left merge found no match (a NaN coordinate pair). -/
def computeBlockPositions (df : List TripRow) (mean_coords : List MeanCoordRow) :
    List (String × Option (ℚ × ℚ)) :=
  let blocks := (df.map (fun r => r.BCTCB2010_x) ++ df.map (fun r => r.BCTCB2010_y)).dedup
  blocks.map fun b =>
    (b, (mean_coords.find? (fun m => m.BCTCB2010 == b)).map
          fun m => (m.mean_longitude, m.mean_latitude))

/-- The mapping from slot keys `"hour_day"` to graphs, as the simulator
consumes it (a Python dict queried with `.get`). -/
abbrev Graphs := List (String × NXGraph)

/-- `build_graphs(df, mean_coords)` of `analyze_routes.py`, lines 74 to 95.
The source computes the route-stat table and the block-position mapping,
binds `graphs = ` the empty dict, and then ends: the function body has no
return statement, so the call returns Python `None` (modelled as `none`).
All three local bindings are dead code; `main` nevertheless unpacks the
result as a pair (`graphs, degrees_df = build_graphs(...)`). -/
def build_graphs (df : List TripRow) (mean_coords : List MeanCoordRow) :
    Option (Graphs × List DegreeRow) :=
  let route_stats := computeRouteStats df
  let block_positions := computeBlockPositions df mean_coords
  let graphs : Graphs := []
  none

/-- The dwell added when a leg ends at a landmark: the if/elif chain of
`calculate_route_time` (30 at Times Square, 120 at Empire State, 180 at
the MET, and no addition otherwise). -/
def dwellTime (b : String) : ℚ :=
  if b = "10113001008" then 30
  else if b = "10076001001" then 120
  else if b = "10143001021" then 180
  else 0

/-- `int(start_time + (total_time // 60)) % 24`: the hour in effect after
`total_time` simulated minutes.  Python floor division and nonnegative
`%` are `Int.floor` and `Int.emod`. -/
def currentHour (start_time : ℤ) (total_time : ℚ) : ℤ :=
  (start_time + (total_time / 60).floor) % 24

/-- The dict key `f"{current_hour}_{day}"` used to select the slot graph. -/
def graphKey (start_time : ℤ) (total_time : ℚ) (day : String) : String :=
  toString (currentHour start_time total_time) ++ "_" ++ day

/-- The loop state of `calculate_route_time`. -/
structure RState where
  total_time : ℚ
  time_on_road : ℚ
  arrival_times : List ℤ
deriving DecidableEq, Repr

/-- One iteration of the leg loop of `calculate_route_time`:
`.ok none` models the early `return None, None` on a missing or falsy
slot graph; `.error e` models an uncaught networkx exception from
`dijkstra_path_length`; `.ok (some s)` is the updated state. -/
def legStep (graphs : Graphs) (start_time : ℤ) (day : String)
    (s : RState) (leg : String × String) : Except NXError (Option RState) :=
  match graphs.lookup (graphKey start_time s.total_time day) with
  | none => .ok none
  | some G =>
    if G.pyBool = false then .ok none
    else
      match dijkstra_path_length G leg.1 leg.2 with
      | .error e => .error e
      | .ok path_time =>
        let total_time := s.total_time + path_time + dwellTime leg.2
        .ok (some { total_time := total_time
                  , time_on_road := s.time_on_road + path_time
                  , arrival_times :=
                      s.arrival_times ++ [(start_time + (total_time / 60).floor) % 24] })

/-- The consecutive stop pairs of a route (`range(len(route) - 1)`). -/
def routeLegs : List String → List (String × String)
  | a :: b :: rest => (a, b) :: routeLegs (b :: rest)
  | _ => []

/-- The leg loop: runs `legStep` over the legs, returning the final
`(time_on_road, arrival_times)` pair on success. -/
def calcLegs (graphs : Graphs) (start_time : ℤ) (day : String) :
    List (String × String) → RState → Except NXError (Option (ℚ × List ℤ))
  | [], s => .ok (some (s.time_on_road, s.arrival_times))
  | leg :: rest, s =>
    match legStep graphs start_time day s leg with
    | .error e => .error e
    | .ok none => .ok none
    | .ok (some s') => calcLegs graphs start_time day rest s'

/-- The initial loop state: `total_time, time_on_road, arrival_times =
0, 0, [start_time]`. -/
def initState (start_time : ℤ) : RState :=
  { total_time := 0, time_on_road := 0, arrival_times := [start_time] }

/-- `calculate_route_time(route, start_time, day, graphs)` of
`analyze_routes.py`, lines 99 to 126. -/
def calculate_route_time (route : List String) (start_time : ℤ) (day : String)
    (graphs : Graphs) : Except NXError (Option (ℚ × List ℤ)) :=
  calcLegs graphs start_time day (routeLegs route) (initState start_time)

/-- The successive loop states of `calculate_route_time` after each
completed leg (empty beyond the point where the run stops early). -/
def legTrace (graphs : Graphs) (start_time : ℤ) (day : String) :
    List (String × String) → RState → List RState
  | [], _ => []
  | leg :: rest, s =>
    match legStep graphs start_time day s leg with
    | .ok (some s') => s' :: legTrace graphs start_time day rest s'
    | _ => []

/-- The total dwell time over a list of leg destinations. -/
def dwellSum (dests : List String) : ℚ :=
  (dests.map dwellTime).sum

/-- One output row of `evaluate_routes`. -/
structure RouteRow where
  route_name : String
  start_time : ℤ
  day : String
  total_time : ℚ
  arrivals : List ℤ
deriving DecidableEq, Repr

/-- Round half to even, as Python `round` does on an exactly represented
value. -/
def roundHalfEven (q : ℚ) : ℤ :=
  let n := q.floor
  if q - n < 1/2 then n
  else if (1 : ℚ)/2 < q - n then n + 1
  else if n % 2 = 0 then n else n + 1

/-- Python `round(x, 2)`. -/
def round2 (q : ℚ) : ℚ :=
  (roundHalfEven (q * 100) : ℚ) / 100

/-- One (start_time, day, route) combination of the sweep, with the
1-based route index used for the label. -/
structure Combo where
  start_time : ℤ
  day : String
  idx : ℕ
  route : List String
deriving DecidableEq, Repr

/-- The sweep order of `evaluate_routes`: start times outermost, then
days, then the six routes with `enumerate(..., start=1)` indices. -/
def evalCombos : List Combo :=
  START_TIMES.flatMap fun st =>
    DAYS_OF_WEEK.flatMap fun day =>
      POSSIBLE_ROUTES.enum.map fun p =>
        { start_time := st, day := day, idx := p.1 + 1, route := p.2 }

/-- The sweep loop: a `None` simulation result skips the row; an uncaught
exception aborts the whole sweep; a success appends a row with the
2-decimal rounded time on road. -/
def sweepAux (graphs : Graphs) : List Combo → List RouteRow → Except NXError (List RouteRow)
  | [], acc => .ok acc
  | c :: rest, acc =>
    match calculate_route_time c.route c.start_time c.day graphs with
    | .error e => .error e
    | .ok none => sweepAux graphs rest acc
    | .ok (some (time_on_road, arrivals)) =>
      sweepAux graphs rest
        (acc ++ [{ route_name := "Route " ++ toString c.idx
                 , start_time := c.start_time, day := c.day
                 , total_time := round2 time_on_road, arrivals := arrivals }])

/-- `evaluate_routes(graphs)` of `analyze_routes.py`, lines 129 to 144. -/
def evaluate_routes (graphs : Graphs) : Except NXError (List RouteRow) :=
  sweepAux graphs evalCombos []

end AnalyzeRoutes


/-! ### Helper lemmas -/

/-- The executable `Rat.floor` is the mathematical floor. -/
theorem rat_floor_eq_floor (q : ℚ) : q.floor = ⌊q⌋ :=
  (Rat.floor_def' q).trans Rat.floor_def.symm

namespace AnalyzeRoutes

/-- A missing slot graph makes the leg loop body return `(None, None)`. -/
theorem legStep_of_lookup_none {graphs : Graphs} {st : ℤ} {day : String}
    {s : RState} {leg : String × String}
    (h : graphs.lookup (graphKey st s.total_time day) = none) :
    legStep graphs st day s leg = .ok none := by
  simp [legStep, h]

/-- A falsy (empty) slot graph makes the leg loop body return `(None, None)`. -/
theorem legStep_of_falsy {graphs : Graphs} {st : ℤ} {day : String}
    {s : RState} {leg : String × String} {G : NXGraph}
    (h : graphs.lookup (graphKey st s.total_time day) = some G)
    (hb : G.pyBool = false) :
    legStep graphs st day s leg = .ok none := by
  simp [legStep, h, hb]

/-- An exception from the shortest-path call propagates out of the leg
loop body. -/
theorem legStep_of_dijkstra_error {graphs : Graphs} {st : ℤ} {day : String}
    {s : RState} {u v : String} {G : NXGraph} {e : NXError}
    (h : graphs.lookup (graphKey st s.total_time day) = some G)
    (hb : G.pyBool = true)
    (hd : dijkstra_path_length G u v = .error e) :
    legStep graphs st day s (u, v) = .error e := by
  simp [legStep, h, hb, hd]

/-- The successful leg loop body: path time added to both clocks, dwell
added to `total_time` only, the new arrival appended. -/
theorem legStep_of_dijkstra_ok {graphs : Graphs} {st : ℤ} {day : String}
    {s : RState} {u v : String} {G : NXGraph} {p : ℚ}
    (h : graphs.lookup (graphKey st s.total_time day) = some G)
    (hb : G.pyBool = true)
    (hd : dijkstra_path_length G u v = .ok p) :
    legStep graphs st day s (u, v) = .ok (some
      { total_time := s.total_time + p + dwellTime v
      , time_on_road := s.time_on_road + p
      , arrival_times := s.arrival_times ++
          [(st + ((s.total_time + p + dwellTime v) / 60).floor) % 24] }) := by
  simp [legStep, h, hb, hd]

/-- Whatever branch produced a successful step, the two clocks moved by
the same path time, and the dwell of the destination went to
`total_time` only. -/
theorem legStep_ok_some_fields {graphs : Graphs} {st : ℤ} {day : String}
    {s s' : RState} {leg : String × String}
    (h : legStep graphs st day s leg = .ok (some s')) :
    ∃ p, s'.total_time = s.total_time + p + dwellTime leg.2 ∧
         s'.time_on_road = s.time_on_road + p := by
  unfold legStep at h
  split at h
  · simp at h
  · split at h
    · simp at h
    · split at h
      · simp at h
      · rename_i p _
        simp only [Except.ok.injEq, Option.some.injEq] at h
        exact ⟨p, by rw [← h], by rw [← h]⟩

/-- The leg loop on no remaining legs returns the accumulated pair. -/
theorem calcLegs_nil {graphs : Graphs} {st : ℤ} {day : String} {s : RState} :
    calcLegs graphs st day [] s = .ok (some (s.time_on_road, s.arrival_times)) :=
  rfl

/-- The leg loop steps through a successful leg. -/
theorem calcLegs_cons_ok {graphs : Graphs} {st : ℤ} {day : String}
    {s s' : RState} {leg : String × String} {rest : List (String × String)}
    (h : legStep graphs st day s leg = .ok (some s')) :
    calcLegs graphs st day (leg :: rest) s = calcLegs graphs st day rest s' := by
  simp [calcLegs, h]

/-- The leg loop aborts the whole attempt on a `(None, None)` step. -/
theorem calcLegs_cons_none {graphs : Graphs} {st : ℤ} {day : String}
    {s : RState} {leg : String × String} {rest : List (String × String)}
    (h : legStep graphs st day s leg = .ok none) :
    calcLegs graphs st day (leg :: rest) s = .ok none := by
  simp [calcLegs, h]

/-- The leg loop propagates an exception. -/
theorem calcLegs_cons_error {graphs : Graphs} {st : ℤ} {day : String}
    {s : RState} {leg : String × String} {rest : List (String × String)} {e : NXError}
    (h : legStep graphs st day s leg = .error e) :
    calcLegs graphs st day (leg :: rest) s = .error e := by
  simp [calcLegs, h]

/-- An exception raised by the first pending combination aborts the sweep. -/
theorem sweepAux_cons_error {graphs : Graphs} {c : Combo} {cs : List Combo}
    {acc : List RouteRow} {e : NXError}
    (h : calculate_route_time c.route c.start_time c.day graphs = .error e) :
    sweepAux graphs (c :: cs) acc = .error e := by
  simp [sweepAux, h]

/-- A `(None, None)` simulation result skips the combination, leaving the
accumulated table untouched. -/
theorem sweepAux_cons_none {graphs : Graphs} {c : Combo} {cs : List Combo}
    {acc : List RouteRow}
    (h : calculate_route_time c.route c.start_time c.day graphs = .ok none) :
    sweepAux graphs (c :: cs) acc = sweepAux graphs cs acc := by
  simp [sweepAux, h]

/-- Every state the leg loop passes through keeps
`total_time = time_on_road` plus the dwell of each destination reached
so far, on top of whatever offset the starting state carried. -/
theorem traceInvariant (graphs : Graphs) (st : ℤ) (day : String) :
    ∀ (legs : List (String × String)) (s : RState) (D : ℚ),
      s.total_time = s.time_on_road + D →
      ∀ (i : ℕ) (s' : RState),
        (legTrace graphs st day legs s)[i]? = some s' →
        s'.total_time = s'.time_on_road + (D + dwellSum ((legs.map Prod.snd).take (i + 1))) := by
  intro legs
  induction legs with
  | nil => intro s D hD i s' hi; simp [legTrace] at hi
  | cons leg rest ih =>
    intro s D hD i s' hi
    cases hstep : legStep graphs st day s leg with
    | error e => rw [legTrace, hstep] at hi; simp at hi
    | ok o =>
      cases o with
      | none => rw [legTrace, hstep] at hi; simp at hi
      | some s1 =>
        rw [legTrace, hstep] at hi
        obtain ⟨p, hp1, hp2⟩ := legStep_ok_some_fields hstep
        cases i with
        | zero =>
          rw [List.getElem?_cons_zero] at hi
          obtain rfl : s1 = s' := by simpa using hi
          rw [hp1, hp2, hD]
          simp [dwellSum]
          ring
        | succ i =>
          rw [List.getElem?_cons_succ] at hi
          have hs1 : s1.total_time = s1.time_on_road + (D + dwellTime leg.2) := by
            rw [hp1, hp2, hD]; ring
          have := ih s1 (D + dwellTime leg.2) hs1 i s' hi
          rw [this]
          simp [dwellSum]
          ring

end AnalyzeRoutes

/-! ### Concrete instances used by counterexamples and witnesses -/

/-- A graphs mapping whose only slot graph holds the three landmarks as
isolated nodes: the slot exists and is nonempty, but no pair of stops is
connected. -/
def exGraphsNoPath : AnalyzeRoutes.Graphs :=
  [("10_Monday", { nodeList := ["10113001008", "10076001001", "10143001021"], edgeList := [] })]

/-- A graphs mapping on which the first sweep route runs to completion:
Times Square to Empire State costs 15 minutes in the 10 oclock Monday
slot, and Empire State to the MET costs 30 minutes in the 12 oclock
Monday slot reached after the 120 minute Empire State dwell. -/
def exGraphsRun : AnalyzeRoutes.Graphs :=
  [ ("10_Monday", { nodeList := [], edgeList := [("10113001008", "10076001001", 15)] })
  , ("12_Monday", { nodeList := [], edgeList := [("10076001001", "10143001021", 30)] }) ]

/-- A graphs mapping whose only entry is a graph with zero nodes. -/
def exGraphsEmptySlot : AnalyzeRoutes.Graphs :=
  [("10_Monday", { nodeList := [], edgeList := [] })]

/-- A route-stat table holding a single self-loop row at Times Square in
the 10 oclock Monday slot. -/
def exStatsSelfLoop : List RouteStatRow :=
  [{ pickup_hour := 10, pickup_day := "Monday"
   , BCTCB2010_x := "10113001008", BCTCB2010_y := "10113001008"
   , avg_travel_time := 5, trip_count := 1 }]

/-- A block-position mapping holding only Times Square. -/
def exPosSelfLoop : List (String × ℚ × ℚ) := [("10113001008", 0, 0)]

/-! ### Claims -/

/-- Claim C1: the claim states that `build_graphs` in `analyze_routes.py`
returns a mapping holding one graph per (hour, weekday) slot (24 graphs).
The source function body ends at the binding `graphs = ` empty dict with
no return statement, so for every input it returns Python `None` and the
tuple unpacking in `main` cannot succeed: the code contradicts both the
stated contract and its own caller. -/
theorem c1_build_graphs_returns_none :
    ∀ (df : List AnalyzeRoutes.TripRow) (mean_coords : List AnalyzeRoutes.MeanCoordRow),
      AnalyzeRoutes.build_graphs df mean_coords = none :=
  fun _ _ => rfl

/-- Claim C2, counterexample: a graphs mapping in which the slot graph for
the first leg exists (and is nonempty) but the origin and destination are
not connected.  The claim states the sweep returns normally and merely
omits the row; instead the `NetworkXNoPath` exception raised inside
`dijkstra_path_length` propagates uncaught out of `evaluate_routes`. -/
theorem c2_counterexample :
    List.lookup "10_Monday" exGraphsNoPath
        = some { nodeList := ["10113001008", "10076001001", "10143001021"], edgeList := [] }
      ∧ AnalyzeRoutes.evaluate_routes exGraphsNoPath = .error .noPath := by
  with_unfolding_all decide

/-- Claim C2, amended: when the slot graph for the leg exists but the leg
endpoints are disconnected, the route-evaluation sweep does not return
normally: the no-path exception escapes to the caller of
`evaluate_routes` (stated here for the first swept combination, start
hour 10, Monday, Route 1), and no row is recorded. -/
theorem c2_disconnected_leg_raises (graphs : AnalyzeRoutes.Graphs) (G : NXGraph)
    (hG : List.lookup "10_Monday" graphs = some G)
    (hb : G.pyBool = true)
    (hd : dijkstra_path_length G "10113001008" "10076001001" = .error .noPath) :
    AnalyzeRoutes.evaluate_routes graphs = .error .noPath := by
  have hkey : AnalyzeRoutes.graphKey 10 ((AnalyzeRoutes.initState 10).total_time) "Monday"
      = "10_Monday" := by with_unfolding_all rfl
  have hG' : List.lookup
      (AnalyzeRoutes.graphKey 10 ((AnalyzeRoutes.initState 10).total_time) "Monday") graphs
      = some G := by rw [hkey]; exact hG
  have hstep := AnalyzeRoutes.legStep_of_dijkstra_error hG' hb hd
  have hcalc : AnalyzeRoutes.calculate_route_time
      ["10113001008", "10076001001", "10143001021"] 10 "Monday" graphs
      = .error .noPath := by
    show AnalyzeRoutes.calcLegs graphs 10 "Monday"
        [("10113001008", "10076001001"), ("10076001001", "10143001021")]
        (AnalyzeRoutes.initState 10) = .error .noPath
    exact AnalyzeRoutes.calcLegs_cons_error hstep
  have hhead : AnalyzeRoutes.evalCombos
      = { start_time := 10, day := "Monday", idx := 1
        , route := ["10113001008", "10076001001", "10143001021"] } :: AnalyzeRoutes.evalCombos.tail := by
    with_unfolding_all rfl
  show AnalyzeRoutes.sweepAux graphs AnalyzeRoutes.evalCombos [] = .error .noPath
  rw [hhead]
  exact AnalyzeRoutes.sweepAux_cons_error hcalc

/-- Claim C2, witness for the amended theorem: the concrete disconnected
mapping `exGraphsNoPath` satisfies all three hypotheses. -/
theorem c2_witness : AnalyzeRoutes.evaluate_routes exGraphsNoPath = .error .noPath :=
  c2_disconnected_leg_raises exGraphsNoPath
    { nodeList := ["10113001008", "10076001001", "10143001021"], edgeList := [] }
    (by with_unfolding_all rfl) (by with_unfolding_all rfl) (by with_unfolding_all rfl)

/-- Claim C3: when both legs of a 3-stop route have a valid shortest path
in the slot graph in effect at their start, the returned `time_on_road`
is exactly the sum of the two shortest-path costs; no dwell time enters
it.  The hypotheses name the graph consulted for each leg: the first at
simulated time 0, the second after the first path time plus the dwell at
the middle stop. -/
theorem c3_time_on_road_is_sum_of_paths (graphs : AnalyzeRoutes.Graphs)
    (st : ℤ) (day : String) (a b c : String) (G1 G2 : NXGraph) (t1 t2 : ℚ)
    (h1 : List.lookup (AnalyzeRoutes.graphKey st 0 day) graphs = some G1)
    (h1b : G1.pyBool = true)
    (h1d : dijkstra_path_length G1 a b = .ok t1)
    (h2 : List.lookup (AnalyzeRoutes.graphKey st (t1 + AnalyzeRoutes.dwellTime b) day) graphs = some G2)
    (h2b : G2.pyBool = true)
    (h2d : dijkstra_path_length G2 b c = .ok t2) :
    ∃ arr, AnalyzeRoutes.calculate_route_time [a, b, c] st day graphs
        = .ok (some (t1 + t2, arr)) := by
  have h1' : List.lookup
      (AnalyzeRoutes.graphKey st (AnalyzeRoutes.initState st).total_time day) graphs
      = some G1 := h1
  have e1 : AnalyzeRoutes.legStep graphs st day (AnalyzeRoutes.initState st) (a, b)
      = .ok (some { total_time := t1 + AnalyzeRoutes.dwellTime b
                  , time_on_road := t1
                  , arrival_times := [st] ++
                      [(st + ((t1 + AnalyzeRoutes.dwellTime b) / 60).floor) % 24] }) := by
    rw [AnalyzeRoutes.legStep_of_dijkstra_ok (s := AnalyzeRoutes.initState st) h1' h1b h1d]
    simp [AnalyzeRoutes.initState]
  have e2 := AnalyzeRoutes.legStep_of_dijkstra_ok
    (s := { total_time := t1 + AnalyzeRoutes.dwellTime b
          , time_on_road := t1
          , arrival_times := [st] ++
              [(st + ((t1 + AnalyzeRoutes.dwellTime b) / 60).floor) % 24] })
    h2 h2b h2d
  refine ⟨([st] ++ [(st + ((t1 + AnalyzeRoutes.dwellTime b) / 60).floor) % 24]) ++
      [(st + ((t1 + AnalyzeRoutes.dwellTime b + t2 + AnalyzeRoutes.dwellTime c) / 60).floor) % 24], ?_⟩
  show AnalyzeRoutes.calcLegs graphs st day [(a, b), (b, c)] (AnalyzeRoutes.initState st) = _
  rw [AnalyzeRoutes.calcLegs_cons_ok e1, AnalyzeRoutes.calcLegs_cons_ok e2,
    AnalyzeRoutes.calcLegs_nil]

set_option maxHeartbeats 1000000 in
/-- Claim C3, witness: on `exGraphsRun` the two legs cost 15 and 30 and
the reported time on road is their sum. -/
theorem c3_witness :
    ∃ arr, AnalyzeRoutes.calculate_route_time
        ["10113001008", "10076001001", "10143001021"] 10 "Monday" exGraphsRun
        = .ok (some (15 + 30, arr)) :=
  c3_time_on_road_is_sum_of_paths exGraphsRun 10 "Monday"
    "10113001008" "10076001001" "10143001021"
    { nodeList := [], edgeList := [("10113001008", "10076001001", 15)] }
    { nodeList := [], edgeList := [("10076001001", "10143001021", 30)] }
    15 30
    (by with_unfolding_all decide) (by with_unfolding_all decide) (by with_unfolding_all decide)
    (by with_unfolding_all decide) (by with_unfolding_all decide) (by with_unfolding_all decide)

/-- Claim C4: throughout any run of `calculate_route_time`, the state
after each completed leg satisfies `total_time = time_on_road` plus the
dwell times applied so far, the dwell after a leg being keyed by the
destination block identity (30 minutes at Times Square, 120 at Empire
State, 180 at the MET) and added to `total_time` only. -/
theorem c4_total_time_tracks_dwell :
    (∀ (graphs : AnalyzeRoutes.Graphs) (st : ℤ) (day : String)
       (legs : List (String × String)) (i : ℕ) (s' : AnalyzeRoutes.RState),
        (AnalyzeRoutes.legTrace graphs st day legs (AnalyzeRoutes.initState st))[i]? = some s' →
        s'.total_time = s'.time_on_road
          + AnalyzeRoutes.dwellSum ((legs.map Prod.snd).take (i + 1)))
    ∧ AnalyzeRoutes.dwellTime "10113001008" = 30
    ∧ AnalyzeRoutes.dwellTime "10076001001" = 120
    ∧ AnalyzeRoutes.dwellTime "10143001021" = 180 := by
  refine ⟨?_, by with_unfolding_all decide, by with_unfolding_all decide,
    by with_unfolding_all decide⟩
  intro graphs st day legs i s' hi
  have h0 : (AnalyzeRoutes.initState st).total_time
      = (AnalyzeRoutes.initState st).time_on_road + 0 := by
    simp [AnalyzeRoutes.initState]
  have := AnalyzeRoutes.traceInvariant graphs st day legs (AnalyzeRoutes.initState st) 0 h0 i s' hi
  rw [this, zero_add]

/-- Claim C4, witness: on `exGraphsRun` the state after the first leg of
Route 1 has `total_time` 135 = `time_on_road` 15 plus the 120 minute
dwell at the Empire State destination. -/
theorem c4_witness :
    (AnalyzeRoutes.legTrace exGraphsRun 10 "Monday" [("10113001008", "10076001001")]
        (AnalyzeRoutes.initState 10))[0]?
      = some { total_time := 135, time_on_road := 15, arrival_times := [10, 12] }
    ∧ (135 : ℚ) = 15 + AnalyzeRoutes.dwellSum
        (([("10113001008", "10076001001")].map Prod.snd).take (0 + 1)) := by
  refine ⟨by with_unfolding_all decide, ?_⟩
  have := c4_total_time_tracks_dwell.1 exGraphsRun 10 "Monday"
    [("10113001008", "10076001001")] 0
    { total_time := 135, time_on_road := 15, arrival_times := [10, 12] }
    (by with_unfolding_all decide)
  simpa using this

/-- Claim C5: the hour used to select the slot graph at each leg is
`floor(start_time + total_time/60) mod 24`, it always lies in `[0, 24)`,
and the selected key is that wrapped hour followed by the weekday, so a
simulated time running past hour 23 wraps around instead of producing an
out-of-range key. -/
theorem c5_current_hour_wraps :
    ∀ (st : ℤ) (t : ℚ) (day : String),
      AnalyzeRoutes.currentHour st t = ⌊(st : ℚ) + t / 60⌋ % 24
      ∧ 0 ≤ AnalyzeRoutes.currentHour st t
      ∧ AnalyzeRoutes.currentHour st t < 24
      ∧ AnalyzeRoutes.graphKey st t day
          = toString (⌊(st : ℚ) + t / 60⌋ % 24) ++ "_" ++ day := by
  intro st t day
  have hfl : AnalyzeRoutes.currentHour st t = ⌊(st : ℚ) + t / 60⌋ % 24 := by
    rw [AnalyzeRoutes.currentHour, rat_floor_eq_floor, Int.floor_int_add]
  refine ⟨hfl, ?_, ?_, ?_⟩
  · exact Int.emod_nonneg _ (by norm_num)
  · exact Int.emod_lt_of_pos _ (by norm_num)
  · rw [AnalyzeRoutes.graphKey, hfl]

/-- Python float `x % m`: `x - m * floor(x / m)`, the semantics of the
modulo in the arrival formula when applied to a non-integer value. -/
def floatMod (x m : ℚ) : ℚ := x - m * ⌊x / m⌋

/-- Claim C6, counterexample: on `exGraphsRun` the first leg of Route 1
costs 15 minutes and the Empire State dwell brings `total_time` to 135,
so the code appends `(10 + 135 // 60) % 24 = 12`; the claimed formula
`(start_time + total_time/60) mod 24` with true division gives
`10 + 135/60 = 12.25`, which differs.  The claimed value is computed with
the Python float modulo `floatMod`. -/
theorem c6_counterexample :
    AnalyzeRoutes.calculate_route_time
        ["10113001008", "10076001001", "10143001021"] 10 "Monday" exGraphsRun
      = .ok (some (45, [10, 12, 15]))
    ∧ floatMod ((10 : ℚ) + 135 / 60) 24 = 49 / 4
    ∧ ((49 : ℚ) / 4) ≠ ((12 : ℤ) : ℚ) := by
  refine ⟨by with_unfolding_all decide, ?_, by norm_num⟩
  have : ⌊((10 : ℚ) + 135 / 60) / 24⌋ = 0 := by
    rw [Int.floor_eq_zero_iff]
    constructor <;> norm_num
  rw [floatMod, this]
  norm_num

/-- Claim C6, amended: the arrival appended after each leg is
`(start_time + floor(total_time / 60)) mod 24` (floor division, as the
source `//` computes), where `total_time` already includes the dwell at
the just-reached stop; the list is seeded with the start hour and, for a
3-stop route, ends with length 3. -/
theorem c6_arrivals_use_floor_division (graphs : AnalyzeRoutes.Graphs)
    (st : ℤ) (day : String) (a b c : String) (G1 G2 : NXGraph) (t1 t2 : ℚ)
    (h1 : List.lookup (AnalyzeRoutes.graphKey st 0 day) graphs = some G1)
    (h1b : G1.pyBool = true)
    (h1d : dijkstra_path_length G1 a b = .ok t1)
    (h2 : List.lookup (AnalyzeRoutes.graphKey st (t1 + AnalyzeRoutes.dwellTime b) day) graphs = some G2)
    (h2b : G2.pyBool = true)
    (h2d : dijkstra_path_length G2 b c = .ok t2) :
    AnalyzeRoutes.calculate_route_time [a, b, c] st day graphs
      = .ok (some (t1 + t2,
          [st,
           (st + ⌊(t1 + AnalyzeRoutes.dwellTime b) / 60⌋) % 24,
           (st + ⌊(t1 + AnalyzeRoutes.dwellTime b + t2 + AnalyzeRoutes.dwellTime c) / 60⌋) % 24]))
    ∧ ([st,
        (st + ⌊(t1 + AnalyzeRoutes.dwellTime b) / 60⌋) % 24,
        (st + ⌊(t1 + AnalyzeRoutes.dwellTime b + t2 + AnalyzeRoutes.dwellTime c) / 60⌋) % 24] : List ℤ).length
      = ([a, b, c] : List String).length := by
  have h1' : List.lookup
      (AnalyzeRoutes.graphKey st (AnalyzeRoutes.initState st).total_time day) graphs
      = some G1 := h1
  have e1 : AnalyzeRoutes.legStep graphs st day (AnalyzeRoutes.initState st) (a, b)
      = .ok (some { total_time := t1 + AnalyzeRoutes.dwellTime b
                  , time_on_road := t1
                  , arrival_times := [st] ++
                      [(st + ((t1 + AnalyzeRoutes.dwellTime b) / 60).floor) % 24] }) := by
    rw [AnalyzeRoutes.legStep_of_dijkstra_ok (s := AnalyzeRoutes.initState st) h1' h1b h1d]
    simp [AnalyzeRoutes.initState]
  have e2 := AnalyzeRoutes.legStep_of_dijkstra_ok
    (s := { total_time := t1 + AnalyzeRoutes.dwellTime b
          , time_on_road := t1
          , arrival_times := [st] ++
              [(st + ((t1 + AnalyzeRoutes.dwellTime b) / 60).floor) % 24] })
    h2 h2b h2d
  refine ⟨?_, rfl⟩
  show AnalyzeRoutes.calcLegs graphs st day [(a, b), (b, c)] (AnalyzeRoutes.initState st) = _
  rw [AnalyzeRoutes.calcLegs_cons_ok e1, AnalyzeRoutes.calcLegs_cons_ok e2,
    AnalyzeRoutes.calcLegs_nil]
  simp [rat_floor_eq_floor]

/-- Claim C6, witness for the amended theorem: the run on `exGraphsRun`
instantiated at Route 1 from start hour 10 on Monday. -/
theorem c6_witness :
    AnalyzeRoutes.calculate_route_time
        ["10113001008", "10076001001", "10143001021"] 10 "Monday" exGraphsRun
      = .ok (some (15 + 30,
          [10,
           (10 + ⌊((15 : ℚ) + AnalyzeRoutes.dwellTime "10076001001") / 60⌋) % 24,
           (10 + ⌊((15 : ℚ) + AnalyzeRoutes.dwellTime "10076001001" + 30
                    + AnalyzeRoutes.dwellTime "10143001021") / 60⌋) % 24]))
    ∧ ([10,
        (10 + ⌊((15 : ℚ) + AnalyzeRoutes.dwellTime "10076001001") / 60⌋) % 24,
        (10 + ⌊((15 : ℚ) + AnalyzeRoutes.dwellTime "10076001001" + 30
                 + AnalyzeRoutes.dwellTime "10143001021") / 60⌋) % 24] : List ℤ).length
      = (["10113001008", "10076001001", "10143001021"] : List String).length :=
  c6_arrivals_use_floor_division exGraphsRun 10 "Monday"
    "10113001008" "10076001001" "10143001021"
    { nodeList := [], edgeList := [("10113001008", "10076001001", 15)] }
    { nodeList := [], edgeList := [("10076001001", "10143001021", 30)] }
    15 30
    (by with_unfolding_all decide) (by with_unfolding_all decide) (by with_unfolding_all decide)
    (by with_unfolding_all decide) (by with_unfolding_all decide) (by with_unfolding_all decide)

/-- Claim C7: a missing slot graph at any leg makes the whole attempt
return `(None, None)` immediately (no partial result), and the sweep
skips such a combination without touching the accumulated table and
without raising. -/
theorem c7_missing_slot_graph_abandons :
    (∀ (graphs : AnalyzeRoutes.Graphs) (st : ℤ) (day : String)
       (s : AnalyzeRoutes.RState) (leg : String × String) (rest : List (String × String)),
        List.lookup (AnalyzeRoutes.graphKey st s.total_time day) graphs = none →
        AnalyzeRoutes.calcLegs graphs st day (leg :: rest) s = .ok none)
    ∧ (∀ (graphs : AnalyzeRoutes.Graphs) (c : AnalyzeRoutes.Combo)
         (cs : List AnalyzeRoutes.Combo) (acc : List AnalyzeRoutes.RouteRow),
        AnalyzeRoutes.calculate_route_time c.route c.start_time c.day graphs = .ok none →
        AnalyzeRoutes.sweepAux graphs (c :: cs) acc = AnalyzeRoutes.sweepAux graphs cs acc) := by
  constructor
  · intro graphs st day s leg rest h
    exact AnalyzeRoutes.calcLegs_cons_none (AnalyzeRoutes.legStep_of_lookup_none h)
  · intro graphs c cs acc h
    exact AnalyzeRoutes.sweepAux_cons_none h

/-- Claim C7, witness: with an empty graphs mapping the first leg finds
no slot graph, the attempt returns `(None, None)`, and the sweep step
for that combination leaves the table unchanged. -/
theorem c7_witness :
    AnalyzeRoutes.calcLegs [] 10 "Monday" [("10113001008", "10076001001")]
        (AnalyzeRoutes.initState 10) = .ok none
    ∧ AnalyzeRoutes.sweepAux []
        [{ start_time := 10, day := "Monday", idx := 1
         , route := ["10113001008", "10076001001", "10143001021"] }] []
      = AnalyzeRoutes.sweepAux [] [] [] :=
  ⟨c7_missing_slot_graph_abandons.1 [] 10 "Monday" (AnalyzeRoutes.initState 10)
     ("10113001008", "10076001001") [] rfl,
   c7_missing_slot_graph_abandons.2 []
     { start_time := 10, day := "Monday", idx := 1
     , route := ["10113001008", "10076001001", "10143001021"] } [] []
     (by with_unfolding_all decide)⟩

/-- Claim C10: a present but empty slot graph (zero nodes) at the first
leg is treated exactly like an absent key, because the guard tests the
truthiness of the looked-up graph object: both cases return
`(None, None)`. -/
theorem c10_empty_graph_like_missing :
    (∀ (graphs : AnalyzeRoutes.Graphs) (st : ℤ) (day : String)
       (a b : String) (rest : List String) (G : NXGraph),
        List.lookup (AnalyzeRoutes.graphKey st 0 day) graphs = some G →
        G.allNodes = [] →
        AnalyzeRoutes.calculate_route_time (a :: b :: rest) st day graphs = .ok none)
    ∧ (∀ (graphs : AnalyzeRoutes.Graphs) (st : ℤ) (day : String)
         (a b : String) (rest : List String),
        List.lookup (AnalyzeRoutes.graphKey st 0 day) graphs = none →
        AnalyzeRoutes.calculate_route_time (a :: b :: rest) st day graphs = .ok none) := by
  constructor
  · intro graphs st day a b rest G hG hempty
    have hG' : List.lookup
        (AnalyzeRoutes.graphKey st (AnalyzeRoutes.initState st).total_time day) graphs
        = some G := hG
    have hb : G.pyBool = false := by simp [NXGraph.pyBool, hempty]
    show AnalyzeRoutes.calcLegs graphs st day
        ((a, b) :: AnalyzeRoutes.routeLegs (b :: rest)) (AnalyzeRoutes.initState st) = .ok none
    exact AnalyzeRoutes.calcLegs_cons_none (AnalyzeRoutes.legStep_of_falsy hG' hb)
  · intro graphs st day a b rest hG
    have hG' : List.lookup
        (AnalyzeRoutes.graphKey st (AnalyzeRoutes.initState st).total_time day) graphs
        = none := hG
    show AnalyzeRoutes.calcLegs graphs st day
        ((a, b) :: AnalyzeRoutes.routeLegs (b :: rest)) (AnalyzeRoutes.initState st) = .ok none
    exact AnalyzeRoutes.calcLegs_cons_none (AnalyzeRoutes.legStep_of_lookup_none hG')

/-- Claim C10, witness: the mapping `exGraphsEmptySlot` holds a zero-node
graph under the key of the first leg and the run returns `(None, None)`,
as it does under the empty mapping where the key is absent. -/
theorem c10_witness :
    AnalyzeRoutes.calculate_route_time
        ["10113001008", "10076001001", "10143001021"] 10 "Monday" exGraphsEmptySlot
      = .ok none
    ∧ AnalyzeRoutes.calculate_route_time
        ["10113001008", "10076001001", "10143001021"] 10 "Monday" []
      = .ok none :=
  ⟨c10_empty_graph_like_missing.1 exGraphsEmptySlot 10 "Monday"
     "10113001008" "10076001001" ["10143001021"] { nodeList := [], edgeList := [] }
     (by with_unfolding_all decide) (by with_unfolding_all decide),
   c10_empty_graph_like_missing.2 [] 10 "Monday"
     "10113001008" "10076001001" ["10143001021"] rfl⟩

/-- Over the configured hours and weekdays, the slot key `"hour_day"`
determines the slot: distinct (hour, day) pairs give distinct keys. -/
theorem slotKey_inj :
    ∀ h1 ∈ NodeDegrees.HOURS, ∀ d1 ∈ NodeDegrees.DAYS_OF_WEEK,
    ∀ h2 ∈ NodeDegrees.HOURS, ∀ d2 ∈ NodeDegrees.DAYS_OF_WEEK,
      toString h1 ++ "_" ++ d1 = toString h2 ++ "_" ++ d2 → h1 = h2 ∧ d1 = d2 := by
  with_unfolding_all decide

/-- Claim C8: every block of the block-position mapping is a node of
every slot graph built by `compute_node_degrees`, including blocks with
no edge in that slot. -/
theorem c8_every_block_is_a_node :
    ∀ (rs : List RouteStatRow) (bp : List (String × ℚ × ℚ)) (hour : ℤ) (day : String)
      (b : String) (pos : ℚ × ℚ),
      hour ∈ NodeDegrees.HOURS → day ∈ NodeDegrees.DAYS_OF_WEEK → (b, pos) ∈ bp →
      (NodeDegrees.slotGraph rs bp hour day).hasNode b = true := by
  intro rs bp hour day b pos _ _ hmem
  have hb : b ∈ (NodeDegrees.slotGraph rs bp hour day).nodeList :=
    List.mem_map_of_mem _ hmem
  have hall : b ∈ (NodeDegrees.slotGraph rs bp hour day).allNodes := by
    simp only [NXGraph.allNodes, List.mem_dedup]
    exact List.mem_append_left _ hb
  exact List.elem_eq_true_of_mem hall

/-- Claim C8, witness: Times Square, present in the block-position
mapping, is a node of the 10 oclock Monday slot graph even when the
route-stat table is empty. -/
theorem c8_witness :
    (NodeDegrees.slotGraph [] exPosSelfLoop 10 "Monday").hasNode "10113001008" = true :=
  c8_every_block_is_a_node [] exPosSelfLoop 10 "Monday" "10113001008" (0, 0)
    (by decide) (by decide) (by with_unfolding_all decide)

/-- Claim C9, counterexample: a route-stat table holding one self-loop
row at Times Square in the 10 oclock Monday slot.  The landmark has
exactly one distinct neighbor with a recorded edge (itself), yet the
emitted row reports degree 2, because networkx counts a self-loop twice;
the claim says the degree equals the distinct-neighbor count 1. -/
theorem c9_counterexample :
    ({ graph := "10_Monday", node := "10113001008", degree := 2 } : DegreeRow) ∈
        NodeDegrees.compute_node_degrees exStatsSelfLoop exPosSelfLoop
    ∧ (NodeDegrees.slotGraph exStatsSelfLoop exPosSelfLoop 10 "Monday").neighbors "10113001008"
        = ["10113001008"]
    ∧ (2 : ℕ) ≠ ["10113001008"].length := by
  with_unfolding_all decide

/-- Claim C9, amended: for each slot graph and configured landmark
present as a node, `compute_node_degrees` emits a row whose degree is the
count of distinct neighbors with a recorded edge in that slot, counting
one more when the slot records a self-loop at the landmark (networkx
counts self-loops twice); a landmark absent from the graph yields no row
for that slot rather than a zero degree. -/
theorem c9_degree_counts_self_loop_twice (rs : List RouteStatRow)
    (bp : List (String × ℚ × ℚ)) (hour : ℤ) (day : String) (node : String)
    (hh : hour ∈ NodeDegrees.HOURS) (hd : day ∈ NodeDegrees.DAYS_OF_WEEK)
    (hn : node ∈ NodeDegrees.TARGET_NODES) :
    ((NodeDegrees.slotGraph rs bp hour day).hasNode node = true →
      ({ graph := toString hour ++ "_" ++ day, node := node
       , degree := (NodeDegrees.slotGraph rs bp hour day).degree node } : DegreeRow)
        ∈ NodeDegrees.compute_node_degrees rs bp)
    ∧ (NodeDegrees.slotGraph rs bp hour day).degree node
        = ((NodeDegrees.slotGraph rs bp hour day).neighbors node).length
          + (if ((NodeDegrees.slotGraph rs bp hour day).edgeWeight? node node).isSome then 1 else 0)
    ∧ ((NodeDegrees.slotGraph rs bp hour day).hasNode node = false →
      ∀ d, ({ graph := toString hour ++ "_" ++ day, node := node, degree := d } : DegreeRow)
        ∉ NodeDegrees.compute_node_degrees rs bp) := by
  refine ⟨?_, rfl, ?_⟩
  · intro htrue
    simp only [NodeDegrees.compute_node_degrees, List.mem_flatMap]
    refine ⟨hour, hh, day, hd, ?_⟩
    simp only [List.mem_filterMap]
    exact ⟨node, hn, by simp [htrue]⟩
  · intro hfalse d hmem
    simp only [NodeDegrees.compute_node_degrees, List.mem_flatMap, List.mem_filterMap] at hmem
    obtain ⟨h', hh', d', hd', n', hn', heq⟩ := hmem
    by_cases hcase : (NodeDegrees.slotGraph rs bp h' d').hasNode n' = true
    · simp only [hcase, if_true, Option.some.injEq, DegreeRow.mk.injEq] at heq
      obtain ⟨hkey, hnode, -⟩ := heq
      obtain ⟨rfl, rfl⟩ := slotKey_inj h' hh' d' hd' hour hh day hd hkey
      rw [hnode] at hcase
      rw [hcase] at hfalse
      cases hfalse
    · simp only [hcase, if_false] at heq
      simp at heq

/-- Claim C9, witness for the amended theorem: instantiated at the
self-loop table, the 10 oclock Monday slot, and Times Square. -/
theorem c9_witness :
    ((NodeDegrees.slotGraph exStatsSelfLoop exPosSelfLoop 10 "Monday").hasNode "10113001008" = true →
      ({ graph := toString (10 : ℤ) ++ "_" ++ "Monday", node := "10113001008"
       , degree := (NodeDegrees.slotGraph exStatsSelfLoop exPosSelfLoop 10 "Monday").degree "10113001008" } : DegreeRow)
        ∈ NodeDegrees.compute_node_degrees exStatsSelfLoop exPosSelfLoop)
    ∧ (NodeDegrees.slotGraph exStatsSelfLoop exPosSelfLoop 10 "Monday").degree "10113001008"
        = ((NodeDegrees.slotGraph exStatsSelfLoop exPosSelfLoop 10 "Monday").neighbors "10113001008").length
          + (if ((NodeDegrees.slotGraph exStatsSelfLoop exPosSelfLoop 10 "Monday").edgeWeight? "10113001008" "10113001008").isSome then 1 else 0)
    ∧ ((NodeDegrees.slotGraph exStatsSelfLoop exPosSelfLoop 10 "Monday").hasNode "10113001008" = false →
      ∀ d, ({ graph := toString (10 : ℤ) ++ "_" ++ "Monday", node := "10113001008", degree := d } : DegreeRow)
        ∉ NodeDegrees.compute_node_degrees exStatsSelfLoop exPosSelfLoop) :=
  c9_degree_counts_self_loop_twice exStatsSelfLoop exPosSelfLoop 10 "Monday" "10113001008"
    (by decide) (by decide) (by decide)
